import Mathlib

/-!
Shallow embedding of the credential/token engine of the auth-microservices
repository (`AuthController` together with the collaborator services it
injects).  Pure string manipulation (OTP envelope construction, `#`-splitting,
JS number coercion, decimal printing of epoch values) is embedded directly;
the crypto primitives of `CredentialService` and the persistence operations of
`TokenService`/`UserService` are not part of the provided sources and are
modelled from the spec (each such definition notes this in its doc comment).
-/

namespace Auth

/-! ### Hex encoding used by the symbolic crypto model

Real HMAC/bcrypt digests are hex/base64 text that never contains the `#`
envelope separator.  The symbolic model keeps those two properties —
injectivity (ideal collision-freedom) and `#`-freeness — via a fixed-width
hexadecimal encoding of the input characters. -/

def hexDigitChar : Nat → Char
  | 0 => '0' | 1 => '1' | 2 => '2' | 3 => '3' | 4 => '4'
  | 5 => '5' | 6 => '6' | 7 => '7' | 8 => '8' | 9 => '9'
  | 10 => 'a' | 11 => 'b' | 12 => 'c' | 13 => 'd' | 14 => 'e' | _ => 'f'

def hexDigitVal : Char → Nat
  | '0' => 0 | '1' => 1 | '2' => 2 | '3' => 3 | '4' => 4
  | '5' => 5 | '6' => 6 | '7' => 7 | '8' => 8 | '9' => 9
  | 'a' => 10 | 'b' => 11 | 'c' => 12 | 'd' => 13 | 'e' => 14 | _ => 15

/-- Six-hex-digit fixed-width encoding of a natural number below `16^6`
(every Unicode code point fits). -/
def toHex6 (n : Nat) : List Char :=
  [hexDigitChar (n / 16 ^ 5 % 16), hexDigitChar (n / 16 ^ 4 % 16),
   hexDigitChar (n / 16 ^ 3 % 16), hexDigitChar (n / 16 ^ 2 % 16),
   hexDigitChar (n / 16 % 16), hexDigitChar (n % 16)]

def val6 (a b c d e f : Char) : Nat :=
  ((((hexDigitVal a * 16 + hexDigitVal b) * 16 + hexDigitVal c) * 16 +
      hexDigitVal d) * 16 + hexDigitVal e) * 16 + hexDigitVal f

def hexEncodeList : List Char → List Char
  | [] => []
  | c :: cs => toHex6 c.toNat ++ hexEncodeList cs

def hexEncode (s : String) : String := ⟨hexEncodeList s.data⟩

/-! ### Decimal printing of epoch-millisecond values

JS template interpolation `${expires}` prints the number in decimal; embedded
as an explicit base-10 printer so its properties can be proved directly. -/

def natReprDigits (n : Nat) : List Char :=
  if _h : n < 10 then [hexDigitChar n]
  else natReprDigits (n / 10) ++ [hexDigitChar (n % 10)]
decreasing_by exact Nat.div_lt_self (by omega) (by omega)

def natRepr (n : Nat) : String := ⟨natReprDigits n⟩

def digitsVal (l : List Char) : Nat :=
  l.foldl (fun acc c => acc * 10 + hexDigitVal c) 0

/-! ### JS number coercion of the `expires` envelope field

The controller compares `Date.now() > +expires` where `expires` is a string;
the unary `+` is JS `ToNumber`.  The model covers the cases arising for the
envelope field: the empty string coerces to `0`, a decimal integer literal
(optionally negative) to its value, anything else to NaN (`none`), and every
comparison against NaN is false. -/

def parseDigitsAux : Nat → List Char → Option Nat
  | acc, [] => some acc
  | acc, c :: cs =>
      if c.isDigit then parseDigitsAux (acc * 10 + hexDigitVal c) cs else none

def jsToNumber (s : String) : Option Int :=
  match s.data with
  | [] => some 0
  | c :: cs =>
      if c = '-' then (parseDigitsAux 0 cs).map (fun n => -(n : Int))
      else (parseDigitsAux 0 (c :: cs)).map (fun n => (n : Int))

/-- The comparison `Date.now() > +expires`, false when `+expires` is NaN. -/
def jsGtNow (now : Nat) (expires : String) : Bool :=
  match jsToNumber expires with
  | none => false
  | some v => (now : Int) > v

/-! ### `#`-splitting of the envelope (JS `String.prototype.split("#")`) -/

def splitOnHashAux : List Char → List Char → List (List Char)
  | [], acc => [acc.reverse]
  | c :: cs, acc =>
      if c = '#' then acc.reverse :: splitOnHashAux cs []
      else splitOnHashAux cs (c :: acc)

def splitHash (s : String) : List String :=
  (splitOnHashAux s.data []).map fun l => ⟨l⟩

/-! ### Data model -/

/-- User roles (`Role` constants; spec §3: enumerated CUSTOMER, ADMIN). -/
inductive Role where
  | CUSTOMER
  | ADMIN
deriving DecidableEq, Repr

/-- Identity record (spec §3): numeric id, full name, unique email, hashed
password, role. -/
structure User where
  id : Nat
  fullName : String
  email : String
  password : String
  role : Role
deriving DecidableEq, Repr

/-- Draft passed to `userService.saveUser` (no id yet). -/
structure UserDraft where
  fullName : String
  email : String
  password : String
  role : Role
deriving DecidableEq, Repr

/-- Persisted refresh-token record (spec §3): id, owning user, expiry. -/
structure TokenRec where
  id : Nat
  userId : Nat
  expiresAt : Nat
deriving DecidableEq, Repr

/-- Collaborator state: the User store and the Refresh Token store with their
id counters. -/
structure World where
  users : List User
  tokens : List TokenRec
  nextUserId : Nat
  nextTokenId : Nat
deriving DecidableEq, Repr

def emptyWorld : World := ⟨[], [], 1, 1⟩

/-- An error passed to `next(createHttpError(status, message))`. -/
structure HttpErr where
  status : Nat
  message : String
deriving DecidableEq, Repr

/-- Outcome of a handler: a success JSON body or `next(error)`. -/
inductive Reply (α : Type) where
  | json (body : α)
  | nexted (e : HttpErr)
deriving DecidableEq, Repr

/-- Cookies attached / cleared on the Express response object. -/
structure Res where
  cookies : List (String × String)
  cleared : List String
deriving DecidableEq, Repr

def emptyRes : Res := ⟨[], []⟩

/-! ### Credential service (modelled from the spec)

`CredentialService` is not among the provided sources; the definitions below
are modelled from the spec. -/

/-- Keyed-digest secret (spec §6: distinct from token signing keys). -/
def HASH_SECRET : String := "hash-secret"

/-- Modelled from the spec: `CredentialService.hashDataUsingCrypto`, the
deterministic one-way keyed digest (HMAC-class) over the prepared material.
Modelled symbolically as an injective hex-only encoding of the secret-prefixed
material: deterministic, `#`-free output, and ideal collision-freedom
(injectivity) standing in for the cryptographic hardness assumption. -/
def hashDataUsingCrypto (data : String) : String :=
  hexEncode (HASH_SECRET ++ "." ++ data)

/-- Modelled from the spec: `CredentialService.hashDataUsingBcrypt`, the
one-way adaptive password hash.  Modelled symbolically as an injective
hex-only encoding (bcrypt output never contains `#` or `.`). -/
def hashDataUsingBcrypt (plain : String) : String :=
  hexEncode ("bcrypt." ++ plain)

/-- Modelled from the spec: `CredentialService.hashCompare` (bcrypt compare):
true exactly when the hash is the hash of the plaintext. -/
def hashCompare (plain hash : String) : Bool :=
  hash = hashDataUsingBcrypt plain

/-! ### Token service (modelled from the spec) -/

def PRIVATE_KEY : String := "access-private-key"

def REFRESH_TOKEN_SECRET : String := "refresh-token-secret"

/-- Claim set of the access token. -/
structure TPayload where
  userId : String
  role : Role
deriving DecidableEq, Repr

/-- Claim set of the refresh token: `{...payload, tokenId}`. -/
structure RefreshPayload where
  userId : String
  role : Role
  tokenId : String
deriving DecidableEq, Repr

def roleString : Role → String
  | Role.CUSTOMER => "customer"
  | Role.ADMIN => "admin"

/-- Modelled from the spec: `TokenService.signAccessToken` — a signature over
the payload with the access key; modelled as a transparent signed encoding. -/
def signAccessToken (p : TPayload) : String :=
  "ajwt." ++ p.userId ++ "." ++ roleString p.role ++ "." ++ hexEncode PRIVATE_KEY

/-- Modelled from the spec: `TokenService.signRefreshToken` — a signature over
`{userId, role, tokenId}` with the distinct refresh secret; modelled as a
transparent signed encoding embedding all three claims. -/
def signRefreshToken (p : RefreshPayload) : String :=
  "rjwt." ++ p.userId ++ "." ++ roleString p.role ++ "." ++ p.tokenId ++ "." ++
    hexEncode REFRESH_TOKEN_SECRET

/-- One year in milliseconds (refresh-record horizon, spec §3/§4.2). -/
def YEAR_MS : Nat := 1000 * 60 * 60 * 24 * 365

/-- Modelled from the spec: `TokenService.saveRefreshToken` — creates and
persists exactly one new Refresh Token Record with a fresh id and expiry
`now + 1 year`. -/
def saveRefreshTokenImpl (now : Nat) (w : World) (u : User) : World × TokenRec :=
  let r : TokenRec := ⟨w.nextTokenId, u.id, now + YEAR_MS⟩
  ({ w with tokens := w.tokens ++ [r], nextTokenId := w.nextTokenId + 1 }, r)

/-- Modelled from the spec: `TokenService.deleteToken` — idempotent-to-caller
revoke: removes the record with the given id; an absent id is not an error. -/
def deleteTokenImpl (w : World) (tokenId : Nat) : World :=
  { w with tokens := w.tokens.filter fun r => r.id ≠ tokenId }

/-- The `saveRefreshToken` collaborator as the controller sees it: it may
throw (persistence failure), surfaced as `Except.error`. -/
structure TokenSvc where
  saveRefreshToken : World → User → Except HttpErr (World × TokenRec)

/-- The honest token service: persistence always succeeds. -/
def tokenSvcAt (now : Nat) : TokenSvc :=
  ⟨fun w u => Except.ok (saveRefreshTokenImpl now w u)⟩

/-! ### User service (modelled from the spec) -/

/-- Modelled from the spec: `UserService.findUserByEmail` (User Store
`findByEmail`). -/
def findUserByEmail (w : World) (email : String) : Option User :=
  w.users.find? fun u => u.email = email

/-- Modelled from the spec: `UserService.findUserByEmailWithPassword` (User
Store `findByEmail` with the password hash included; World users always carry
it). -/
def findUserByEmailWithPassword (w : World) (email : String) : Option User :=
  w.users.find? fun u => u.email = email

/-- Modelled from the spec: `UserService.saveUser` (User Store `save`):
persists the draft under a fresh id and returns the created User. -/
def saveUserImpl (w : World) (d : UserDraft) : World × User :=
  let u : User := ⟨w.nextUserId, d.fullName, d.email, d.password, d.role⟩
  ({ w with users := w.users ++ [u], nextUserId := w.nextUserId + 1 }, u)

/-! ### Request bodies and response bodies -/

structure SendOtpReq where
  fullName : String
  email : String
  password : String
  confirmPassword : String
deriving DecidableEq, Repr

/-- Success body `res.json({ fullName, email, hashOtp, otp })`. -/
structure SendOtpBody where
  fullName : String
  email : String
  hashOtp : String
  otp : String
deriving DecidableEq, Repr

structure VerifyOtpReq where
  fullName : String
  email : String
  otp : String
  hashOtp : String
deriving DecidableEq, Repr

structure LoginReq where
  email : String
  password : String
deriving DecidableEq, Repr

/-- Success body `res.json({ ...user, password: null })` — the user with the password
field replaced by `null`. -/
structure ClientUser where
  id : Nat
  fullName : String
  email : String
  password : Option String
  role : Role
deriving DecidableEq, Repr

/-- Success body `res.json({ user: null, message })` returned by logout. -/
structure LogoutBody where
  user : Option User
  message : String
deriving DecidableEq, Repr

/-! ### AuthController

Direct translation of the four handlers of `AuthController`.  Express-level
request-shape validation (`validationResult`) and logging are out of scope
(spec §1) and elided; `Date.now()` and `generateOtp()` are the explicit
`now` / `otp` arguments. -/

/-- Translation of `AuthController.sendOtp` (part_000 lines 24-84). -/
def sendOtp (w : World) (body : SendOtpReq) (now : Nat) (otp : String) :
    Reply SendOtpBody :=
  if body.password ≠ body.confirmPassword then
    Reply.nexted ⟨400, "confirm password not match to password!"⟩
  else
    match findUserByEmail w body.email with
    | some _ => Reply.nexted ⟨400, "This email already registered!"⟩
    | none =>
      let hashPassword := hashDataUsingBcrypt body.password
      let ttl := 1000 * 60 * 10
      let expires := now + ttl
      let prepareDataForHash :=
        otp ++ "." ++ body.email ++ "." ++ natRepr expires ++ "." ++ hashPassword
      let hashOtpData := hashDataUsingCrypto prepareDataForHash
      let hashOtp := hashOtpData ++ "#" ++ natRepr expires ++ "#" ++ hashPassword
      Reply.json ⟨body.fullName, body.email, hashOtp, otp⟩

/-- Translation of `AuthController.verifyOtp` (part_000 lines 86-192). -/
def verifyOtp (svc : TokenSvc) (w : World) (body : VerifyOtpReq) (now : Nat) :
    World × Res × Reply User :=
  match findUserByEmail w body.email with
  | some _ => (w, emptyRes, Reply.nexted ⟨400, "This email already registered!"⟩)
  | none =>
    let parts := splitHash body.hashOtp
    if parts.length ≠ 3 then
      (w, emptyRes, Reply.nexted ⟨400, "Otp is invalid!"⟩)
    else
      let prevHashedOtp := parts.getD 0 ""
      let expires := parts.getD 1 ""
      let hashPassword := parts.getD 2 ""
      if jsGtNow now expires then
        (w, emptyRes, Reply.nexted ⟨408, "Otp is expired!"⟩)
      else
        let prepareDataForHash :=
          body.otp ++ "." ++ body.email ++ "." ++ expires ++ "." ++ hashPassword
        let hashOtpData := hashDataUsingCrypto prepareDataForHash
        if hashOtpData ≠ prevHashedOtp then
          (w, emptyRes, Reply.nexted ⟨400, "Otp is invalid!"⟩)
        else
          let su := saveUserImpl w ⟨body.fullName, body.email, hashPassword, Role.CUSTOMER⟩
          let w1 := su.1
          let user := su.2
          let payload : TPayload := ⟨natRepr user.id, user.role⟩
          let accessToken := signAccessToken payload
          match svc.saveRefreshToken w1 user with
          | Except.error e => (w1, emptyRes, Reply.nexted e)
          | Except.ok (w2, tokenRef) =>
            let refreshToken :=
              signRefreshToken ⟨payload.userId, payload.role, natRepr tokenRef.id⟩
            (w2,
             ⟨[("accessToken", accessToken), ("refreshToken", refreshToken)], []⟩,
             Reply.json user)

/-- Translation of `AuthController.login` (part_000 lines 220-289). -/
def login (svc : TokenSvc) (w : World) (body : LoginReq) :
    World × Res × Reply ClientUser :=
  match findUserByEmailWithPassword w body.email with
  | none => (w, emptyRes, Reply.nexted ⟨400, "Email or Password does not match!"⟩)
  | some user =>
    if ¬ hashCompare body.password user.password then
      (w, emptyRes, Reply.nexted ⟨400, "Email or Password does not match!"⟩)
    else
      let payload : TPayload := ⟨natRepr user.id, user.role⟩
      let accessToken := signAccessToken payload
      match svc.saveRefreshToken w user with
      | Except.error e => (w, emptyRes, Reply.nexted e)
      | Except.ok (w2, tokenRef) =>
        let refreshToken :=
          signRefreshToken ⟨payload.userId, payload.role, natRepr tokenRef.id⟩
        (w2,
         ⟨[("accessToken", accessToken), ("refreshToken", refreshToken)], []⟩,
         Reply.json ⟨user.id, user.fullName, user.email, none, user.role⟩)

/-- Translation of `AuthController.logout` (part_000 lines 205-218). -/
def logout (w : World) (tokenId : Nat) : World × Res × Reply LogoutBody :=
  let w' := deleteTokenImpl w tokenId
  (w', ⟨[], ["accessToken", "refreshToken"]⟩,
   Reply.json ⟨none, "User successfully logout."⟩)

/-! ## Properties of the embedding -/

theorem hexDigitVal_hexDigitChar : ∀ x < 16, hexDigitVal (hexDigitChar x) = x := by
  decide

theorem hexDigitChar_ne_hash (x : Nat) : hexDigitChar x ≠ '#' := by
  unfold hexDigitChar
  split <;> decide

theorem val6_toHex6 (n : Nat) (h : n < 16 ^ 6) :
    match toHex6 n with
    | [a, b, c, d, e, f] => val6 a b c d e f = n
    | _ => False := by
  simp only [toHex6, val6]
  rw [hexDigitVal_hexDigitChar _ (Nat.mod_lt _ (by norm_num)),
      hexDigitVal_hexDigitChar _ (Nat.mod_lt _ (by norm_num)),
      hexDigitVal_hexDigitChar _ (Nat.mod_lt _ (by norm_num)),
      hexDigitVal_hexDigitChar _ (Nat.mod_lt _ (by norm_num)),
      hexDigitVal_hexDigitChar _ (Nat.mod_lt _ (by norm_num)),
      hexDigitVal_hexDigitChar _ (Nat.mod_lt _ (by norm_num))]
  omega

theorem toHex6_injOn {m n : Nat} (hm : m < 16 ^ 6) (hn : n < 16 ^ 6)
    (h : toHex6 m = toHex6 n) : m = n := by
  have h1 := val6_toHex6 m hm
  have h2 := val6_toHex6 n hn
  simp only [toHex6] at h h1 h2
  injection h with e1 h; injection h with e2 h; injection h with e3 h
  injection h with e4 h; injection h with e5 h; injection h with e6 _
  simp only [toHex6] at *
  rw [e1, e2, e3, e4, e5, e6] at h1
  omega

theorem toHex6_length (n : Nat) : (toHex6 n).length = 6 := rfl

theorem char_toNat_lt (c : Char) : c.toNat < 16 ^ 6 := by
  have h := c.valid
  simp only [UInt32.isValidChar, Nat.isValidChar, Char.toNat] at h ⊢
  omega

theorem toHex6_toNat_inj {c d : Char} (h : toHex6 c.toNat = toHex6 d.toNat) :
    c = d := by
  have := toHex6_injOn (char_toNat_lt c) (char_toNat_lt d) h
  exact Char.eq_of_val_eq (by
    have hc : c.val.toBitVec.toNat = d.val.toBitVec.toNat := this
    exact UInt32.eq_of_toBitVec_eq (BitVec.eq_of_toNat_eq hc))

theorem hexEncodeList_inj : ∀ {l1 l2 : List Char},
    hexEncodeList l1 = hexEncodeList l2 → l1 = l2 := by
  intro l1
  induction l1 with
  | nil =>
    intro l2 h
    cases l2 with
    | nil => rfl
    | cons c cs => simp [hexEncodeList, toHex6] at h
  | cons c cs ih =>
    intro l2 h
    cases l2 with
    | nil => simp [hexEncodeList, toHex6] at h
    | cons d ds =>
      simp only [hexEncodeList] at h
      have hlen : (toHex6 c.toNat).length = (toHex6 d.toNat).length := by
        rw [toHex6_length, toHex6_length]
      obtain ⟨h1, h2⟩ := List.append_inj h hlen
      rw [toHex6_toNat_inj h1, ih h2]

theorem hexEncode_inj {s t : String} (h : hexEncode s = hexEncode t) : s = t := by
  cases s; cases t
  simp only [hexEncode] at h
  injection h with h
  exact congrArg String.mk (hexEncodeList_inj h)

theorem mem_toHex6_ne_hash {c : Char} {n : Nat} (h : c ∈ toHex6 n) : c ≠ '#' := by
  simp only [toHex6, List.mem_cons, List.not_mem_nil, or_false] at h
  rcases h with h | h | h | h | h | h <;> rw [h] <;> exact hexDigitChar_ne_hash _

theorem mem_hexEncodeList_ne_hash : ∀ {l : List Char} {c : Char},
    c ∈ hexEncodeList l → c ≠ '#' := by
  intro l
  induction l with
  | nil => intro c h; simp [hexEncodeList] at h
  | cons d ds ih =>
    intro c h
    simp only [hexEncodeList, List.mem_append] at h
    rcases h with h | h
    · exact mem_toHex6_ne_hash h
    · exact ih h

theorem digitsVal_foldl (l : List Char) (acc : Nat) :
    l.foldl (fun a c => a * 10 + hexDigitVal c) acc =
      acc * 10 ^ l.length + digitsVal l := by
  induction l generalizing acc with
  | nil => simp [digitsVal]
  | cons c cs ih =>
    simp only [List.foldl_cons, digitsVal] at *
    rw [ih, ih (0 * 10 + hexDigitVal c)]
    ring_nf
    simp [List.length_cons, pow_succ]
    ring

theorem digitsVal_natReprDigits (n : Nat) : digitsVal (natReprDigits n) = n := by
  induction n using Nat.strong_induction_on with
  | _ n ih =>
    rw [natReprDigits]
    split
    · rename_i h
      simp only [digitsVal, List.foldl_cons, List.foldl_nil]
      rw [hexDigitVal_hexDigitChar n (by omega)]
      omega
    · rename_i h
      simp only [digitsVal, List.foldl_append, List.foldl_cons, List.foldl_nil]
      have ih' := ih (n / 10) (Nat.div_lt_self (by omega) (by omega))
      simp only [digitsVal] at ih'
      rw [ih', hexDigitVal_hexDigitChar (n % 10) (by omega)]
      omega

theorem natRepr_inj {m n : Nat} (h : natRepr m = natRepr n) : m = n := by
  simp only [natRepr] at h
  injection h with h
  have := digitsVal_natReprDigits m
  rw [h, digitsVal_natReprDigits n] at this
  omega

theorem natReprDigits_isDigit (n : Nat) : ∀ c ∈ natReprDigits n, c.isDigit := by
  induction n using Nat.strong_induction_on with
  | _ n ih =>
    rw [natReprDigits]
    split
    · rename_i h
      intro c hc
      simp only [List.mem_singleton] at hc
      subst hc
      interval_cases n <;> decide
    · rename_i h
      intro c hc
      simp only [List.mem_append, List.mem_singleton] at hc
      rcases hc with hc | hc
      · exact ih (n / 10) (Nat.div_lt_self (by omega) (by omega)) c hc
      · subst hc
        have h10 : n % 10 < 10 := Nat.mod_lt _ (by omega)
        interval_cases h' : n % 10 <;> decide

theorem natReprDigits_ne_hash {n : Nat} {c : Char} (h : c ∈ natReprDigits n) :
    c ≠ '#' := by
  have := natReprDigits_isDigit n c h
  intro hc
  subst hc
  simp [Char.isDigit] at this

theorem natReprDigits_ne_nil (n : Nat) : natReprDigits n ≠ [] := by
  rw [natReprDigits]
  split
  · simp
  · simp

theorem parseDigitsAux_append (l r : List Char) (acc : Nat)
    (h : ∀ c ∈ l, c.isDigit) :
    parseDigitsAux acc (l ++ r) =
      parseDigitsAux (l.foldl (fun a c => a * 10 + hexDigitVal c) acc) r := by
  induction l generalizing acc with
  | nil => simp
  | cons c cs ih =>
    simp only [List.cons_append, parseDigitsAux, List.foldl_cons]
    rw [if_pos (h c (List.mem_cons_self c cs))]
    exact ih _ (fun d hd => h d (List.mem_cons_of_mem c hd))

theorem parseDigitsAux_natReprDigits (n : Nat) :
    parseDigitsAux 0 (natReprDigits n) = some n := by
  have := parseDigitsAux_append (natReprDigits n) [] 0 (natReprDigits_isDigit n)
  simp only [List.append_nil] at this
  rw [this]
  have := digitsVal_natReprDigits n
  simp only [digitsVal] at this
  rw [this]
  rfl

theorem natReprDigits_head_ne_minus (n : Nat) :
    ∀ c cs, natReprDigits n = c :: cs → c ≠ '-' := by
  intro c cs h
  have : c ∈ natReprDigits n := by rw [h]; exact List.mem_cons_self c cs
  have := natReprDigits_isDigit n c this
  intro hc
  subst hc
  simp [Char.isDigit] at this

theorem jsToNumber_natRepr (n : Nat) : jsToNumber (natRepr n) = some (n : Int) := by
  simp only [jsToNumber, natRepr]
  rcases hd : natReprDigits n with _ | ⟨c, cs⟩
  · exact absurd hd (natReprDigits_ne_nil n)
  · have hc := natReprDigits_head_ne_minus n c cs hd
    have hparse := parseDigitsAux_natReprDigits n
    rw [hd] at hparse
    simp [if_neg hc, hparse]

theorem splitOnHashAux_no_hash (l : List Char) (acc : List Char)
    (h : ∀ c ∈ l, c ≠ '#') : splitOnHashAux l acc = [acc.reverse ++ l] := by
  induction l generalizing acc with
  | nil => simp [splitOnHashAux]
  | cons c cs ih =>
    simp only [splitOnHashAux]
    rw [if_neg (h c (List.mem_cons_self c cs))]
    rw [ih _ (fun d hd => h d (List.mem_cons_of_mem c hd))]
    simp

theorem splitOnHashAux_hash_split (l rest : List Char) (acc : List Char)
    (h : ∀ c ∈ l, c ≠ '#') :
    splitOnHashAux (l ++ '#' :: rest) acc =
      (acc.reverse ++ l) :: splitOnHashAux rest [] := by
  induction l generalizing acc with
  | nil => simp [splitOnHashAux]
  | cons c cs ih =>
    simp only [List.cons_append, splitOnHashAux, List.append_eq]
    rw [if_neg (h c (List.mem_cons_self c cs))]
    rw [ih _ (fun d hd => h d (List.mem_cons_of_mem c hd))]
    simp

theorem splitHash_three (a b c : String)
    (ha : ∀ x ∈ a.data, x ≠ '#') (hb : ∀ x ∈ b.data, x ≠ '#')
    (hc : ∀ x ∈ c.data, x ≠ '#') :
    splitHash (a ++ "#" ++ b ++ "#" ++ c) = [a, b, c] := by
  simp only [splitHash, String.data_append]
  have h1 : a.data ++ "#".data ++ b.data ++ "#".data ++ c.data =
      a.data ++ '#' :: (b.data ++ '#' :: c.data) := by simp
  rw [h1, splitOnHashAux_hash_split _ _ _ ha,
      splitOnHashAux_hash_split _ _ _ hb,
      splitOnHashAux_no_hash _ _ hc]
  simp

theorem string_data_inj {a b : String} (h : a.data = b.data) : a = b := by
  cases a; cases b; cases h; rfl

theorem hashDataUsingCrypto_no_hash {s : String} :
    ∀ c ∈ (hashDataUsingCrypto s).data, c ≠ '#' := fun _ hc =>
  mem_hexEncodeList_ne_hash hc

theorem hashDataUsingBcrypt_no_hash {s : String} :
    ∀ c ∈ (hashDataUsingBcrypt s).data, c ≠ '#' := fun _ hc =>
  mem_hexEncodeList_ne_hash hc

theorem natRepr_no_hash {n : Nat} : ∀ c ∈ (natRepr n).data, c ≠ '#' := fun _ hc =>
  natReprDigits_ne_hash hc

theorem hashDataUsingCrypto_inj {a b : String}
    (h : hashDataUsingCrypto a = hashDataUsingCrypto b) : a = b := by
  have h2 := hexEncode_inj h
  have h3 : (HASH_SECRET ++ "." ++ a).data = (HASH_SECRET ++ "." ++ b).data := by
    rw [h2]
  simp only [String.data_append, List.append_assoc] at h3
  exact string_data_inj
    (List.append_cancel_left (List.append_cancel_left h3))

theorem hashDataUsingBcrypt_inj {a b : String}
    (h : hashDataUsingBcrypt a = hashDataUsingBcrypt b) : a = b := by
  have h2 := hexEncode_inj h
  have h3 : (("bcrypt." : String) ++ a).data = (("bcrypt." : String) ++ b).data := by
    rw [h2]
  simp only [String.data_append] at h3
  exact string_data_inj (List.append_cancel_left h3)

/-- The digest material `otp.email.expires.passwordHash` determines each field
when the other three are fixed (left/right cancellation of the unchanged
parts; no separator-collision is possible when only one field varies). -/
theorem material_inj_otp {o1 o2 e x h : String}
    (heq : o1 ++ "." ++ e ++ "." ++ x ++ "." ++ h =
           o2 ++ "." ++ e ++ "." ++ x ++ "." ++ h) : o1 = o2 := by
  have h3 := congrArg String.data heq
  simp only [String.data_append, List.append_assoc] at h3
  exact string_data_inj (List.append_cancel_right h3)

theorem material_inj_email {o e1 e2 x h : String}
    (heq : o ++ "." ++ e1 ++ "." ++ x ++ "." ++ h =
           o ++ "." ++ e2 ++ "." ++ x ++ "." ++ h) : e1 = e2 := by
  have h3 := congrArg String.data heq
  simp only [String.data_append, List.append_assoc] at h3
  have h4 := List.append_cancel_left (List.append_cancel_left h3)
  exact string_data_inj (List.append_cancel_right h4)

theorem material_inj_expires {o e x1 x2 h : String}
    (heq : o ++ "." ++ e ++ "." ++ x1 ++ "." ++ h =
           o ++ "." ++ e ++ "." ++ x2 ++ "." ++ h) : x1 = x2 := by
  have h3 := congrArg String.data heq
  simp only [String.data_append, List.append_assoc] at h3
  have h4 := List.append_cancel_left (List.append_cancel_left
    (List.append_cancel_left (List.append_cancel_left h3)))
  exact string_data_inj (List.append_cancel_right h4)

theorem material_inj_hash {o e x h1 h2 : String}
    (heq : o ++ "." ++ e ++ "." ++ x ++ "." ++ h1 =
           o ++ "." ++ e ++ "." ++ x ++ "." ++ h2) : h1 = h2 := by
  have h3 := congrArg String.data heq
  simp only [String.data_append, List.append_assoc] at h3
  exact string_data_inj (List.append_cancel_left (List.append_cancel_left
    (List.append_cancel_left (List.append_cancel_left
      (List.append_cancel_left (List.append_cancel_left h3))))))

/-- Inversion of a successful `sendOtp`: the preconditions held and the
returned envelope has the documented `digest#expiresAt#passwordHash` shape
with `expiresAt = now + 10 minutes`. -/
theorem sendOtp_json_inv {w : World} {body : SendOtpReq} {now : Nat}
    {otp : String} {sb : SendOtpBody}
    (h : sendOtp w body now otp = Reply.json sb) :
    body.password = body.confirmPassword ∧
    findUserByEmail w body.email = none ∧
    sb = ⟨body.fullName, body.email,
          hashDataUsingCrypto (otp ++ "." ++ body.email ++ "." ++
              natRepr (now + 1000 * 60 * 10) ++ "." ++
              hashDataUsingBcrypt body.password) ++ "#" ++
            natRepr (now + 1000 * 60 * 10) ++ "#" ++
            hashDataUsingBcrypt body.password,
          otp⟩ := by
  unfold sendOtp at h
  by_cases hpw : body.password = body.confirmPassword
  · rw [if_neg (by simp [hpw])] at h
    rcases hfind : findUserByEmail w body.email with _ | u
    · rw [hfind] at h
      injection h with h
      exact ⟨hpw, rfl, h.symm⟩
    · rw [hfind] at h
      cases h
  · rw [if_pos (by simp [hpw])] at h
    cases h

theorem jsGtNow_natRepr (now ex : Nat) :
    jsGtNow now (natRepr ex) = decide (ex < now) := by
  simp only [jsGtNow, jsToNumber_natRepr]
  norm_num

/-- Unfolding of `verifyOtp` on a well-formed envelope
`digest#expiresAt#passwordHash` for an unregistered email: the 3-field check
passes, and the outcome is decided by the expiry comparison and the digest
comparison, exactly in the order of the code. -/
theorem verifyOtp_envelope_eq (svc : TokenSvc) (w : World)
    (fn email sotp d h : String) (ex now : Nat)
    (hemail : findUserByEmail w email = none)
    (hd : ∀ c ∈ d.data, c ≠ '#') (hh : ∀ c ∈ h.data, c ≠ '#') :
    verifyOtp svc w ⟨fn, email, sotp, d ++ "#" ++ natRepr ex ++ "#" ++ h⟩ now =
      if ex < now then
        (w, emptyRes, Reply.nexted ⟨408, "Otp is expired!"⟩)
      else
        if hashDataUsingCrypto
            (sotp ++ "." ++ email ++ "." ++ natRepr ex ++ "." ++ h) = d then
          let su := saveUserImpl w ⟨fn, email, h, Role.CUSTOMER⟩
          match svc.saveRefreshToken su.1 su.2 with
          | Except.error e => (su.1, emptyRes, Reply.nexted e)
          | Except.ok (w2, tokenRef) =>
            (w2,
             ⟨[("accessToken", signAccessToken ⟨natRepr su.2.id, su.2.role⟩),
               ("refreshToken",
                signRefreshToken ⟨natRepr su.2.id, su.2.role, natRepr tokenRef.id⟩)],
              []⟩,
             Reply.json su.2)
        else
          (w, emptyRes, Reply.nexted ⟨400, "Otp is invalid!"⟩) := by
  have hsplit := splitHash_three d (natRepr ex) h hd natRepr_no_hash hh
  simp only [verifyOtp, hemail, hsplit, List.length_cons, List.length_nil,
    List.getD_cons_zero, List.getD_cons_succ]
  rw [jsGtNow_natRepr]
  simp only [decide_eq_true_eq]
  norm_num

/-! ## Claim theorems -/

/-- C9: Logout deletes the refresh-token record identified by the presented
token id and then clears both the access-token and refresh-token cookies,
regardless of whether a record with that id existed (an absent id is treated
as success): for every store state and token id, the store keeps exactly the
records with a different id, both cookies are cleared, and the reply is the
success body. -/
theorem claim_logout_idempotent_clear (w : World) (tokenId : Nat) :
    (logout w tokenId).1.tokens = w.tokens.filter (fun r => r.id ≠ tokenId) ∧
    (logout w tokenId).2.1.cleared = ["accessToken", "refreshToken"] ∧
    (logout w tokenId).2.2 = Reply.json ⟨none, "User successfully logout."⟩ :=
  ⟨rfl, rfl, rfl⟩

/-- C10: every successful send-OTP call sets the envelope's expiry field to
exactly the current time plus 10 minutes (600000 milliseconds). -/
theorem claim_otp_ttl {w : World} {body : SendOtpReq} {now : Nat}
    {otp : String} {sb : SendOtpBody}
    (h : sendOtp w body now otp = Reply.json sb) :
    (splitHash sb.hashOtp).getD 1 "" = natRepr (now + 600000) := by
  obtain ⟨-, -, rfl⟩ := sendOtp_json_inv h
  rw [splitHash_three _ _ _ hashDataUsingCrypto_no_hash natRepr_no_hash
    hashDataUsingBcrypt_no_hash]
  norm_num

theorem claim_otp_ttl_witness :
    (splitHash
        (hashDataUsingCrypto ("111111" ++ "." ++ "a@b" ++ "." ++
            natRepr (0 + 1000 * 60 * 10) ++ "." ++ hashDataUsingBcrypt "p1") ++
          "#" ++ natRepr (0 + 1000 * 60 * 10) ++ "#" ++
          hashDataUsingBcrypt "p1")).getD 1 "" = natRepr (0 + 600000) :=
  @claim_otp_ttl emptyWorld ⟨"Ann", "a@b", "p1", "p1"⟩ 0 "111111" _ rfl

/-- C6: in the login flow, an unknown email and a wrong password for an
existing email both produce the identical generic error — status 400 with
message "Email or Password does not match!" — so the caller cannot tell which
field was wrong. -/
theorem claim_login_generic_error (svc : TokenSvc) (w : World) (body : LoginReq)
    (h : findUserByEmailWithPassword w body.email = none ∨
         ∃ user, findUserByEmailWithPassword w body.email = some user ∧
           hashCompare body.password user.password = false) :
    (login svc w body).2.2 =
      Reply.nexted ⟨400, "Email or Password does not match!"⟩ := by
  rcases h with hnone | ⟨user, hsome, hbad⟩
  · simp [login, hnone]
  · simp [login, hsome, hbad]

theorem claim_login_generic_error_witness :
    (login (tokenSvcAt 0) emptyWorld ⟨"a@b", "p1"⟩).2.2 =
      Reply.nexted ⟨400, "Email or Password does not match!"⟩ :=
  claim_login_generic_error (tokenSvcAt 0) emptyWorld ⟨"a@b", "p1"⟩
    (Or.inl rfl)

/-- C8: the registration flow guards email uniqueness at both steps: send-OTP
rejects when `password ≠ confirmPassword` and rejects with the conflict error
"This email already registered!" when the email is registered; verify-OTP
re-checks registration before creating the user, so for a registered email it
fails with the conflict error and leaves the user store unchanged (no second
user is created). -/
theorem claim_email_uniqueness_guard (svc : TokenSvc) (w : World) (u : User)
    (fn email pw cpw otp sotp env : String) (now : Nat)
    (hu : findUserByEmail w email = some u) (hpw : pw ≠ cpw) :
    sendOtp w ⟨fn, email, pw, cpw⟩ now otp =
      Reply.nexted ⟨400, "confirm password not match to password!"⟩ ∧
    sendOtp w ⟨fn, email, pw, pw⟩ now otp =
      Reply.nexted ⟨400, "This email already registered!"⟩ ∧
    verifyOtp svc w ⟨fn, email, sotp, env⟩ now =
      (w, emptyRes, Reply.nexted ⟨400, "This email already registered!"⟩) := by
  refine ⟨?_, ?_, ?_⟩
  · simp [sendOtp, hpw]
  · simp [sendOtp, hu]
  · simp [verifyOtp, hu]

theorem claim_email_uniqueness_guard_witness :
    sendOtp ⟨[⟨1, "Ann", "a@b", "h1", Role.CUSTOMER⟩], [], 2, 1⟩
        ⟨"Bea", "a@b", "p1", "p2"⟩ 0 "111111" =
      Reply.nexted ⟨400, "confirm password not match to password!"⟩ ∧
    sendOtp ⟨[⟨1, "Ann", "a@b", "h1", Role.CUSTOMER⟩], [], 2, 1⟩
        ⟨"Bea", "a@b", "p1", "p1"⟩ 0 "111111" =
      Reply.nexted ⟨400, "This email already registered!"⟩ ∧
    verifyOtp (tokenSvcAt 0) ⟨[⟨1, "Ann", "a@b", "h1", Role.CUSTOMER⟩], [], 2, 1⟩
        ⟨"Bea", "a@b", "111111", "x#0#y"⟩ 0 =
      (⟨[⟨1, "Ann", "a@b", "h1", Role.CUSTOMER⟩], [], 2, 1⟩, emptyRes,
       Reply.nexted ⟨400, "This email already registered!"⟩) :=
  claim_email_uniqueness_guard (tokenSvcAt 0)
    ⟨[⟨1, "Ann", "a@b", "h1", Role.CUSTOMER⟩], [], 2, 1⟩
    ⟨1, "Ann", "a@b", "h1", Role.CUSTOMER⟩
    "Bea" "a@b" "p1" "p2" "111111" "111111" "x#0#y" 0 rfl (by decide)

/-- C4: in both the login flow and the registration verify-OTP flow, if
`saveRefreshToken` fails then the flow aborts through `next(error)` and
neither the access-token cookie nor the refresh-token cookie is attached to
the response — so tokens reach the client only after the refresh-token record
has been persisted. -/
theorem claim_save_failure_aborts (svc : TokenSvc) (w : World)
    (lbody : LoginReq) (vbody : VerifyOtpReq) (now : Nat)
    (hfail : ∀ w' u, ∃ e, svc.saveRefreshToken w' u = Except.error e) :
    ((login svc w lbody).2.1.cookies = [] ∧
      ∃ e, (login svc w lbody).2.2 = Reply.nexted e) ∧
    ((verifyOtp svc w vbody now).2.1.cookies = [] ∧
      ∃ e, (verifyOtp svc w vbody now).2.2 = Reply.nexted e) := by
  constructor
  · rcases hfind : findUserByEmailWithPassword w lbody.email with _ | user
    · simp [login, hfind, emptyRes]
    · by_cases hc : hashCompare lbody.password user.password
      · obtain ⟨e, he⟩ := hfail w user
        simp [login, hfind, hc, he, emptyRes]
      · simp [login, hfind, hc, emptyRes]
  · rcases hfind : findUserByEmail w vbody.email with _ | u
    · simp only [verifyOtp, hfind]
      split
      · simp [emptyRes]
      · split
        · simp [emptyRes]
        · split
          · simp [emptyRes]
          · obtain ⟨e, he⟩ := hfail
              (saveUserImpl w ⟨vbody.fullName, vbody.email,
                (splitHash vbody.hashOtp)[2]?.getD "", Role.CUSTOMER⟩).1
              (saveUserImpl w ⟨vbody.fullName, vbody.email,
                (splitHash vbody.hashOtp)[2]?.getD "", Role.CUSTOMER⟩).2
            simp [he, emptyRes]
    · simp [verifyOtp, hfind, emptyRes]

theorem claim_save_failure_aborts_witness :
    ((login ⟨fun _ _ => Except.error ⟨500, "db down"⟩⟩
        ⟨[⟨1, "Ann", "a@b", hashDataUsingBcrypt "p1", Role.CUSTOMER⟩], [], 2, 1⟩
        ⟨"a@b", "p1"⟩).2.1.cookies = [] ∧
      ∃ e, (login ⟨fun _ _ => Except.error ⟨500, "db down"⟩⟩
        ⟨[⟨1, "Ann", "a@b", hashDataUsingBcrypt "p1", Role.CUSTOMER⟩], [], 2, 1⟩
        ⟨"a@b", "p1"⟩).2.2 = Reply.nexted e) ∧
    ((verifyOtp ⟨fun _ _ => Except.error ⟨500, "db down"⟩⟩
        ⟨[⟨1, "Ann", "a@b", hashDataUsingBcrypt "p1", Role.CUSTOMER⟩], [], 2, 1⟩
        ⟨"Bea", "b@c", "111111", "x#0#y"⟩ 0).2.1.cookies = [] ∧
      ∃ e, (verifyOtp ⟨fun _ _ => Except.error ⟨500, "db down"⟩⟩
        ⟨[⟨1, "Ann", "a@b", hashDataUsingBcrypt "p1", Role.CUSTOMER⟩], [], 2, 1⟩
        ⟨"Bea", "b@c", "111111", "x#0#y"⟩ 0).2.2 = Reply.nexted e) :=
  claim_save_failure_aborts ⟨fun _ _ => Except.error ⟨500, "db down"⟩⟩
    ⟨[⟨1, "Ann", "a@b", hashDataUsingBcrypt "p1", Role.CUSTOMER⟩], [], 2, 1⟩
    ⟨"a@b", "p1"⟩ ⟨"Bea", "b@c", "111111", "x#0#y"⟩ 0
    (fun _ _ => ⟨⟨500, "db down"⟩, rfl⟩)

/-- C1: for every envelope produced by the send-OTP step, verify-OTP for an
unregistered email succeeds if and only if the envelope splits on `#` into
exactly 3 fields, the current time is ≤ the expiry (sendTime + 10 min), and
the digest recomputed from the submitted otp, the email, and the envelope's
expiresAt and passwordHash fields equals the envelope's stored digest. -/
theorem claim_verify_envelope_iff (w0 w : World) (fn email pw otp sotp : String)
    (sendTime now : Nat) (sb : SendOtpBody)
    (hsend : sendOtp w0 ⟨fn, email, pw, pw⟩ sendTime otp = Reply.json sb)
    (hemail : findUserByEmail w email = none) :
    (∃ u, (verifyOtp (tokenSvcAt now) w ⟨fn, email, sotp, sb.hashOtp⟩ now).2.2 =
        Reply.json u) ↔
    ((splitHash sb.hashOtp).length = 3 ∧
     now ≤ sendTime + 1000 * 60 * 10 ∧
     hashDataUsingCrypto (sotp ++ "." ++ email ++ "." ++
         (splitHash sb.hashOtp).getD 1 "" ++ "." ++
         (splitHash sb.hashOtp).getD 2 "") =
       (splitHash sb.hashOtp).getD 0 "") := by
  obtain ⟨-, -, rfl⟩ := sendOtp_json_inv hsend
  have hsplit := splitHash_three
    (hashDataUsingCrypto (otp ++ "." ++ email ++ "." ++
      natRepr (sendTime + 1000 * 60 * 10) ++ "." ++ hashDataUsingBcrypt pw))
    (natRepr (sendTime + 1000 * 60 * 10)) (hashDataUsingBcrypt pw)
    hashDataUsingCrypto_no_hash natRepr_no_hash hashDataUsingBcrypt_no_hash
  rw [verifyOtp_envelope_eq (tokenSvcAt now) w fn email sotp _ _
    (sendTime + 1000 * 60 * 10) now hemail
    hashDataUsingCrypto_no_hash hashDataUsingBcrypt_no_hash, hsplit]
  simp only [List.getD_cons_zero, List.getD_cons_succ, List.length_cons,
    List.length_nil]
  by_cases hex : sendTime + 1000 * 60 * 10 < now
  · rw [if_pos hex]
    simp [hex, Nat.not_le_of_lt hex]
  · rw [if_neg hex]
    by_cases hdig : hashDataUsingCrypto (sotp ++ "." ++ email ++ "." ++
        natRepr (sendTime + 1000 * 60 * 10) ++ "." ++ hashDataUsingBcrypt pw) =
      hashDataUsingCrypto (otp ++ "." ++ email ++ "." ++
        natRepr (sendTime + 1000 * 60 * 10) ++ "." ++ hashDataUsingBcrypt pw)
    · rw [if_pos hdig]
      simp only [tokenSvcAt]
      constructor
      · intro _
        exact ⟨by norm_num, by omega, hdig⟩
      · intro _
        exact ⟨_, rfl⟩
    · rw [if_neg hdig]
      constructor
      · rintro ⟨u, hu⟩
        cases hu
      · rintro ⟨-, -, h3⟩
        exact absurd h3 hdig

theorem claim_verify_envelope_iff_witness :
    (∃ u, (verifyOtp (tokenSvcAt 5) emptyWorld
        ⟨"Ann", "a@b", "111111",
         (⟨"Ann", "a@b",
           hashDataUsingCrypto ("111111" ++ "." ++ "a@b" ++ "." ++
               natRepr (0 + 1000 * 60 * 10) ++ "." ++ hashDataUsingBcrypt "p1") ++
             "#" ++ natRepr (0 + 1000 * 60 * 10) ++ "#" ++
             hashDataUsingBcrypt "p1",
           "111111"⟩ : SendOtpBody).hashOtp⟩ 5).2.2 = Reply.json u) ↔
    ((splitHash (⟨"Ann", "a@b",
           hashDataUsingCrypto ("111111" ++ "." ++ "a@b" ++ "." ++
               natRepr (0 + 1000 * 60 * 10) ++ "." ++ hashDataUsingBcrypt "p1") ++
             "#" ++ natRepr (0 + 1000 * 60 * 10) ++ "#" ++
             hashDataUsingBcrypt "p1",
           "111111"⟩ : SendOtpBody).hashOtp).length = 3 ∧
     5 ≤ 0 + 1000 * 60 * 10 ∧
     hashDataUsingCrypto ("111111" ++ "." ++ "a@b" ++ "." ++
         (splitHash (⟨"Ann", "a@b",
           hashDataUsingCrypto ("111111" ++ "." ++ "a@b" ++ "." ++
               natRepr (0 + 1000 * 60 * 10) ++ "." ++ hashDataUsingBcrypt "p1") ++
             "#" ++ natRepr (0 + 1000 * 60 * 10) ++ "#" ++
             hashDataUsingBcrypt "p1",
           "111111"⟩ : SendOtpBody).hashOtp).getD 1 "" ++ "." ++
         (splitHash (⟨"Ann", "a@b",
           hashDataUsingCrypto ("111111" ++ "." ++ "a@b" ++ "." ++
               natRepr (0 + 1000 * 60 * 10) ++ "." ++ hashDataUsingBcrypt "p1") ++
             "#" ++ natRepr (0 + 1000 * 60 * 10) ++ "#" ++
             hashDataUsingBcrypt "p1",
           "111111"⟩ : SendOtpBody).hashOtp).getD 2 "") =
       (splitHash (⟨"Ann", "a@b",
           hashDataUsingCrypto ("111111" ++ "." ++ "a@b" ++ "." ++
               natRepr (0 + 1000 * 60 * 10) ++ "." ++ hashDataUsingBcrypt "p1") ++
             "#" ++ natRepr (0 + 1000 * 60 * 10) ++ "#" ++
             hashDataUsingBcrypt "p1",
           "111111"⟩ : SendOtpBody).hashOtp).getD 0 "") :=
  claim_verify_envelope_iff emptyWorld emptyWorld "Ann" "a@b" "p1" "111111"
    "111111" 0 5 _ rfl rfl

/-- C3: verification of an otherwise-valid envelope exactly at
`now = expiresAt` succeeds; at `now = expiresAt + 1` millisecond it fails with
the OTP-expired error (HTTP 408 "Otp is expired!"), a distinct error kind from
the OTP-invalid error (HTTP 400 "Otp is invalid!"). -/
theorem claim_expiry_boundary (w0 w : World) (fn email pw otp : String)
    (sendTime : Nat) (sb : SendOtpBody)
    (hsend : sendOtp w0 ⟨fn, email, pw, pw⟩ sendTime otp = Reply.json sb)
    (hemail : findUserByEmail w email = none) :
    (∃ u, (verifyOtp (tokenSvcAt (sendTime + 1000 * 60 * 10)) w
        ⟨fn, email, otp, sb.hashOtp⟩ (sendTime + 1000 * 60 * 10)).2.2 =
          Reply.json u) ∧
    (verifyOtp (tokenSvcAt (sendTime + 1000 * 60 * 10 + 1)) w
        ⟨fn, email, otp, sb.hashOtp⟩ (sendTime + 1000 * 60 * 10 + 1)).2.2 =
      Reply.nexted ⟨408, "Otp is expired!"⟩ ∧
    (⟨408, "Otp is expired!"⟩ : HttpErr) ≠ ⟨400, "Otp is invalid!"⟩ := by
  obtain ⟨-, -, rfl⟩ := sendOtp_json_inv hsend
  refine ⟨?_, ?_, by decide⟩
  · rw [verifyOtp_envelope_eq (tokenSvcAt (sendTime + 1000 * 60 * 10)) w fn
      email otp _ _ (sendTime + 1000 * 60 * 10) (sendTime + 1000 * 60 * 10)
      hemail hashDataUsingCrypto_no_hash hashDataUsingBcrypt_no_hash]
    rw [if_neg (by omega), if_pos rfl]
    exact ⟨_, rfl⟩
  · rw [verifyOtp_envelope_eq (tokenSvcAt (sendTime + 1000 * 60 * 10 + 1)) w fn
      email otp _ _ (sendTime + 1000 * 60 * 10) (sendTime + 1000 * 60 * 10 + 1)
      hemail hashDataUsingCrypto_no_hash hashDataUsingBcrypt_no_hash]
    rw [if_pos (by omega)]

theorem claim_expiry_boundary_witness :
    (∃ u, (verifyOtp (tokenSvcAt (0 + 1000 * 60 * 10)) emptyWorld
        ⟨"Ann", "a@b", "111111",
         (⟨"Ann", "a@b",
           hashDataUsingCrypto ("111111" ++ "." ++ "a@b" ++ "." ++
               natRepr (0 + 1000 * 60 * 10) ++ "." ++ hashDataUsingBcrypt "p1") ++
             "#" ++ natRepr (0 + 1000 * 60 * 10) ++ "#" ++
             hashDataUsingBcrypt "p1",
           "111111"⟩ : SendOtpBody).hashOtp⟩ (0 + 1000 * 60 * 10)).2.2 =
          Reply.json u) ∧
    (verifyOtp (tokenSvcAt (0 + 1000 * 60 * 10 + 1)) emptyWorld
        ⟨"Ann", "a@b", "111111",
         (⟨"Ann", "a@b",
           hashDataUsingCrypto ("111111" ++ "." ++ "a@b" ++ "." ++
               natRepr (0 + 1000 * 60 * 10) ++ "." ++ hashDataUsingBcrypt "p1") ++
             "#" ++ natRepr (0 + 1000 * 60 * 10) ++ "#" ++
             hashDataUsingBcrypt "p1",
           "111111"⟩ : SendOtpBody).hashOtp⟩ (0 + 1000 * 60 * 10 + 1)).2.2 =
      Reply.nexted ⟨408, "Otp is expired!"⟩ ∧
    (⟨408, "Otp is expired!"⟩ : HttpErr) ≠ ⟨400, "Otp is invalid!"⟩ :=
  claim_expiry_boundary emptyWorld emptyWorld "Ann" "a@b" "p1" "111111" 0 _
    rfl rfl

theorem natRepr_lit_600000 : natRepr 600000 = "600000" := by
  rw [natRepr]
  rw [natReprDigits, dif_neg (by omega)]
  rw [natReprDigits, dif_neg (by omega)]
  rw [natReprDigits, dif_neg (by omega)]
  rw [natReprDigits, dif_neg (by omega)]
  rw [natReprDigits, dif_neg (by omega)]
  rw [natReprDigits, dif_pos (by omega)]
  rfl

theorem natRepr_lit_0 : natRepr 0 = "0" := by
  rw [natRepr, natReprDigits, dif_pos (by omega)]
  rfl

/-- C7: every successful login and every successful registration-verify
appends exactly one new refresh-token record to the token store, and the
refresh token attached as the `refreshToken` cookie is signed over that
record's id as `tokenId` together with the `userId` and `role` of the
authenticated (resp. just-created) user. -/
theorem claim_one_token_record (w w0 wv : World) (body : LoginReq) (user : User)
    (fn email pw otp : String) (sendTime now : Nat) (sb : SendOtpBody)
    (hfind : findUserByEmailWithPassword w body.email = some user)
    (hmatch : hashCompare body.password user.password = true)
    (hsend : sendOtp w0 ⟨fn, email, pw, pw⟩ sendTime otp = Reply.json sb)
    (hvemail : findUserByEmail wv email = none)
    (hnow : now ≤ sendTime + 1000 * 60 * 10) :
    ((login (tokenSvcAt now) w body).1.tokens =
        w.tokens ++ [⟨w.nextTokenId, user.id, now + YEAR_MS⟩] ∧
      (login (tokenSvcAt now) w body).2.1.cookies =
        [("accessToken", signAccessToken ⟨natRepr user.id, user.role⟩),
         ("refreshToken",
          signRefreshToken ⟨natRepr user.id, user.role, natRepr w.nextTokenId⟩)]) ∧
    ((verifyOtp (tokenSvcAt now) wv ⟨fn, email, otp, sb.hashOtp⟩ now).1.tokens =
        wv.tokens ++ [⟨wv.nextTokenId, wv.nextUserId, now + YEAR_MS⟩] ∧
      (verifyOtp (tokenSvcAt now) wv ⟨fn, email, otp, sb.hashOtp⟩ now).2.1.cookies =
        [("accessToken", signAccessToken ⟨natRepr wv.nextUserId, Role.CUSTOMER⟩),
         ("refreshToken",
          signRefreshToken
            ⟨natRepr wv.nextUserId, Role.CUSTOMER, natRepr wv.nextTokenId⟩)]) := by
  constructor
  · constructor <;>
      simp [login, hfind, hmatch, tokenSvcAt, saveRefreshTokenImpl]
  · obtain ⟨-, -, rfl⟩ := sendOtp_json_inv hsend
    rw [verifyOtp_envelope_eq (tokenSvcAt now) wv fn email otp _ _
      (sendTime + 1000 * 60 * 10) now hvemail
      hashDataUsingCrypto_no_hash hashDataUsingBcrypt_no_hash]
    rw [if_neg (by omega), if_pos rfl]
    constructor <;> simp [tokenSvcAt, saveRefreshTokenImpl, saveUserImpl]

theorem claim_one_token_record_witness :
    ((login (tokenSvcAt 5)
        ⟨[⟨1, "Ann", "a@b", hashDataUsingBcrypt "p1", Role.CUSTOMER⟩], [], 2, 1⟩
        ⟨"a@b", "p1"⟩).1.tokens =
        [] ++ [⟨1, 1, 5 + YEAR_MS⟩] ∧
      (login (tokenSvcAt 5)
        ⟨[⟨1, "Ann", "a@b", hashDataUsingBcrypt "p1", Role.CUSTOMER⟩], [], 2, 1⟩
        ⟨"a@b", "p1"⟩).2.1.cookies =
        [("accessToken", signAccessToken ⟨natRepr 1, Role.CUSTOMER⟩),
         ("refreshToken",
          signRefreshToken ⟨natRepr 1, Role.CUSTOMER, natRepr 1⟩)]) ∧
    ((verifyOtp (tokenSvcAt 5) emptyWorld
        ⟨"Bea", "b@c", "111111",
         (⟨"Bea", "b@c",
           hashDataUsingCrypto ("111111" ++ "." ++ "b@c" ++ "." ++
               natRepr (0 + 1000 * 60 * 10) ++ "." ++ hashDataUsingBcrypt "q1") ++
             "#" ++ natRepr (0 + 1000 * 60 * 10) ++ "#" ++
             hashDataUsingBcrypt "q1",
           "111111"⟩ : SendOtpBody).hashOtp⟩ 5).1.tokens =
        [] ++ [⟨1, 1, 5 + YEAR_MS⟩] ∧
      (verifyOtp (tokenSvcAt 5) emptyWorld
        ⟨"Bea", "b@c", "111111",
         (⟨"Bea", "b@c",
           hashDataUsingCrypto ("111111" ++ "." ++ "b@c" ++ "." ++
               natRepr (0 + 1000 * 60 * 10) ++ "." ++ hashDataUsingBcrypt "q1") ++
             "#" ++ natRepr (0 + 1000 * 60 * 10) ++ "#" ++
             hashDataUsingBcrypt "q1",
           "111111"⟩ : SendOtpBody).hashOtp⟩ 5).2.1.cookies =
        [("accessToken", signAccessToken ⟨natRepr 1, Role.CUSTOMER⟩),
         ("refreshToken",
          signRefreshToken ⟨natRepr 1, Role.CUSTOMER, natRepr 1⟩)]) :=
  claim_one_token_record
    ⟨[⟨1, "Ann", "a@b", hashDataUsingBcrypt "p1", Role.CUSTOMER⟩], [], 2, 1⟩
    emptyWorld emptyWorld ⟨"a@b", "p1"⟩
    ⟨1, "Ann", "a@b", hashDataUsingBcrypt "p1", Role.CUSTOMER⟩
    "Bea" "b@c" "q1" "111111" 0 5 _ rfl (by decide) rfl rfl (by omega)

set_option maxRecDepth 4000 in
/-- C5: the claim that both success responses scrub the password fails on the
code: the login success response does return the user with `password: null`,
but the registration verify-OTP success response returns the created user
as persisted — its password field still holds the bcrypt hash.  Concretely,
for the valid envelope of `("Ann","a@b","p1")`, the verify-OTP response body
carries `password = hashDataUsingBcrypt "p1"`, not a scrubbed value. -/
theorem claim_password_scrub_bug :
    (login (tokenSvcAt 0)
        ⟨[⟨1, "Ann", "a@b", hashDataUsingBcrypt "p1", Role.CUSTOMER⟩], [], 2, 1⟩
        ⟨"a@b", "p1"⟩).2.2 =
      Reply.json ⟨1, "Ann", "a@b", none, Role.CUSTOMER⟩ ∧
    (verifyOtp (tokenSvcAt 1) emptyWorld
        ⟨"Ann", "a@b", "111111",
         hashDataUsingCrypto ("111111" ++ "." ++ "a@b" ++ "." ++
             natRepr 600000 ++ "." ++ hashDataUsingBcrypt "p1") ++
           "#" ++ natRepr 600000 ++ "#" ++ hashDataUsingBcrypt "p1"⟩ 1).2.2 =
      Reply.json ⟨1, "Ann", "a@b", hashDataUsingBcrypt "p1", Role.CUSTOMER⟩ ∧
    hashDataUsingBcrypt "p1" ≠ "" := by
  refine ⟨rfl, ?_, by decide⟩
  rw [natRepr_lit_600000]
  decide

set_option maxRecDepth 8000 in
/-- C2 counterexample: the claim "changing any one of otp, email, expiresAt,
passwordHash before verification causes verify-OTP to fail with the
OTP-invalid error" is false on the code.  For the concrete valid envelope of
`("Ann","a@b","p1")` issued at time 0 (which verifies at time 1), changing
only the envelope's expiresAt field to 0 makes verification fail with the
OTP-expired error (408), and changing only the email to an already-registered
one makes it fail with the already-registered conflict error — in both cases
not the OTP-invalid error. -/
theorem claim_tamper_counterexample :
    sendOtp emptyWorld ⟨"Ann", "a@b", "p1", "p1"⟩ 0 "111111" =
      Reply.json ⟨"Ann", "a@b",
        hashDataUsingCrypto ("111111" ++ "." ++ "a@b" ++ "." ++
            natRepr 600000 ++ "." ++ hashDataUsingBcrypt "p1") ++
          "#" ++ natRepr 600000 ++ "#" ++ hashDataUsingBcrypt "p1",
        "111111"⟩ ∧
    (verifyOtp (tokenSvcAt 1) emptyWorld
        ⟨"Ann", "a@b", "111111",
         hashDataUsingCrypto ("111111" ++ "." ++ "a@b" ++ "." ++
             natRepr 600000 ++ "." ++ hashDataUsingBcrypt "p1") ++
           "#" ++ natRepr 600000 ++ "#" ++ hashDataUsingBcrypt "p1"⟩ 1).2.2 =
      Reply.json ⟨1, "Ann", "a@b", hashDataUsingBcrypt "p1", Role.CUSTOMER⟩ ∧
    (verifyOtp (tokenSvcAt 1) emptyWorld
        ⟨"Ann", "a@b", "111111",
         hashDataUsingCrypto ("111111" ++ "." ++ "a@b" ++ "." ++
             natRepr 600000 ++ "." ++ hashDataUsingBcrypt "p1") ++
           "#" ++ natRepr 0 ++ "#" ++ hashDataUsingBcrypt "p1"⟩ 1).2.2 =
      Reply.nexted ⟨408, "Otp is expired!"⟩ ∧
    (verifyOtp (tokenSvcAt 1)
        ⟨[⟨1, "Bea", "b@c", hashDataUsingBcrypt "q1", Role.CUSTOMER⟩], [], 2, 1⟩
        ⟨"Ann", "b@c", "111111",
         hashDataUsingCrypto ("111111" ++ "." ++ "a@b" ++ "." ++
             natRepr 600000 ++ "." ++ hashDataUsingBcrypt "p1") ++
           "#" ++ natRepr 600000 ++ "#" ++ hashDataUsingBcrypt "p1"⟩ 1).2.2 =
      Reply.nexted ⟨400, "This email already registered!"⟩ ∧
    (⟨408, "Otp is expired!"⟩ : HttpErr) ≠ ⟨400, "Otp is invalid!"⟩ ∧
    (⟨400, "This email already registered!"⟩ : HttpErr) ≠
      ⟨400, "Otp is invalid!"⟩ := by
  refine ⟨rfl, ?_⟩
  rw [natRepr_lit_600000, natRepr_lit_0]
  refine ⟨by decide, by decide, by decide, by decide, by decide⟩

/-- C2 as amended: starting from a valid envelope for `(otp, email, password)`
expiring at `sendTime + 10 min`, with verification happening at a time `now`
within the validity window and the email unregistered: changing only the otp,
changing only the email to another unregistered email, or changing only the
envelope's passwordHash field makes verify-OTP fail with the OTP-invalid
error; changing only the envelope's expiresAt field makes it fail — with the
OTP-expired error when the new expiry lies before `now`, and with the
OTP-invalid error otherwise.  (As the counterexample shows, changing the
email to a *registered* email instead yields the already-registered conflict
error.) -/
theorem claim_tamper_amended (svc : TokenSvc) (w : World)
    (fn email email' pw otp otp' h' : String) (sendTime now e' : Nat)
    (hemail : findUserByEmail w email = none)
    (hemail' : findUserByEmail w email' = none)
    (hnow : now ≤ sendTime + 1000 * 60 * 10)
    (hotp : otp' ≠ otp) (hem : email' ≠ email)
    (hh : h' ≠ hashDataUsingBcrypt pw) (hh2 : ∀ c ∈ h'.data, c ≠ '#')
    (he : e' ≠ sendTime + 1000 * 60 * 10) :
    (verifyOtp svc w ⟨fn, email, otp',
        hashDataUsingCrypto (otp ++ "." ++ email ++ "." ++
            natRepr (sendTime + 1000 * 60 * 10) ++ "." ++
            hashDataUsingBcrypt pw) ++
          "#" ++ natRepr (sendTime + 1000 * 60 * 10) ++ "#" ++
          hashDataUsingBcrypt pw⟩ now).2.2 =
      Reply.nexted ⟨400, "Otp is invalid!"⟩ ∧
    (verifyOtp svc w ⟨fn, email', otp,
        hashDataUsingCrypto (otp ++ "." ++ email ++ "." ++
            natRepr (sendTime + 1000 * 60 * 10) ++ "." ++
            hashDataUsingBcrypt pw) ++
          "#" ++ natRepr (sendTime + 1000 * 60 * 10) ++ "#" ++
          hashDataUsingBcrypt pw⟩ now).2.2 =
      Reply.nexted ⟨400, "Otp is invalid!"⟩ ∧
    (verifyOtp svc w ⟨fn, email, otp,
        hashDataUsingCrypto (otp ++ "." ++ email ++ "." ++
            natRepr (sendTime + 1000 * 60 * 10) ++ "." ++
            hashDataUsingBcrypt pw) ++
          "#" ++ natRepr (sendTime + 1000 * 60 * 10) ++ "#" ++ h'⟩ now).2.2 =
      Reply.nexted ⟨400, "Otp is invalid!"⟩ ∧
    (verifyOtp svc w ⟨fn, email, otp,
        hashDataUsingCrypto (otp ++ "." ++ email ++ "." ++
            natRepr (sendTime + 1000 * 60 * 10) ++ "." ++
            hashDataUsingBcrypt pw) ++
          "#" ++ natRepr e' ++ "#" ++ hashDataUsingBcrypt pw⟩ now).2.2 =
      (if e' < now then Reply.nexted ⟨408, "Otp is expired!"⟩
       else Reply.nexted ⟨400, "Otp is invalid!"⟩) := by
  refine ⟨?_, ?_, ?_, ?_⟩
  · rw [verifyOtp_envelope_eq svc w fn email otp' _ _
      (sendTime + 1000 * 60 * 10) now hemail
      hashDataUsingCrypto_no_hash hashDataUsingBcrypt_no_hash]
    rw [if_neg (by omega), if_neg fun heq =>
      hotp (material_inj_otp (hashDataUsingCrypto_inj heq))]
  · rw [verifyOtp_envelope_eq svc w fn email' otp _ _
      (sendTime + 1000 * 60 * 10) now hemail'
      hashDataUsingCrypto_no_hash hashDataUsingBcrypt_no_hash]
    rw [if_neg (by omega), if_neg fun heq =>
      hem (material_inj_email (hashDataUsingCrypto_inj heq))]
  · rw [verifyOtp_envelope_eq svc w fn email otp _ h'
      (sendTime + 1000 * 60 * 10) now hemail
      hashDataUsingCrypto_no_hash hh2]
    rw [if_neg (by omega), if_neg fun heq =>
      hh (material_inj_hash (hashDataUsingCrypto_inj heq))]
  · rw [verifyOtp_envelope_eq svc w fn email otp _ _ e' now hemail
      hashDataUsingCrypto_no_hash hashDataUsingBcrypt_no_hash]
    by_cases hlt : e' < now
    · rw [if_pos hlt, if_pos hlt]
    · rw [if_neg hlt, if_neg fun heq =>
        he (natRepr_inj (material_inj_expires (hashDataUsingCrypto_inj heq))),
        if_neg hlt]

theorem claim_tamper_amended_witness :
    (verifyOtp (tokenSvcAt 1) emptyWorld ⟨"Ann", "a@b", "222222",
        hashDataUsingCrypto ("111111" ++ "." ++ "a@b" ++ "." ++
            natRepr (0 + 1000 * 60 * 10) ++ "." ++
            hashDataUsingBcrypt "p1") ++
          "#" ++ natRepr (0 + 1000 * 60 * 10) ++ "#" ++
          hashDataUsingBcrypt "p1"⟩ 1).2.2 =
      Reply.nexted ⟨400, "Otp is invalid!"⟩ ∧
    (verifyOtp (tokenSvcAt 1) emptyWorld ⟨"Ann", "b@c", "111111",
        hashDataUsingCrypto ("111111" ++ "." ++ "a@b" ++ "." ++
            natRepr (0 + 1000 * 60 * 10) ++ "." ++
            hashDataUsingBcrypt "p1") ++
          "#" ++ natRepr (0 + 1000 * 60 * 10) ++ "#" ++
          hashDataUsingBcrypt "p1"⟩ 1).2.2 =
      Reply.nexted ⟨400, "Otp is invalid!"⟩ ∧
    (verifyOtp (tokenSvcAt 1) emptyWorld ⟨"Ann", "a@b", "111111",
        hashDataUsingCrypto ("111111" ++ "." ++ "a@b" ++ "." ++
            natRepr (0 + 1000 * 60 * 10) ++ "." ++
            hashDataUsingBcrypt "p1") ++
          "#" ++ natRepr (0 + 1000 * 60 * 10) ++ "#" ++ "deadbeef"⟩ 1).2.2 =
      Reply.nexted ⟨400, "Otp is invalid!"⟩ ∧
    (verifyOtp (tokenSvcAt 1) emptyWorld ⟨"Ann", "a@b", "111111",
        hashDataUsingCrypto ("111111" ++ "." ++ "a@b" ++ "." ++
            natRepr (0 + 1000 * 60 * 10) ++ "." ++
            hashDataUsingBcrypt "p1") ++
          "#" ++ natRepr 0 ++ "#" ++ hashDataUsingBcrypt "p1"⟩ 1).2.2 =
      (if 0 < 1 then Reply.nexted ⟨408, "Otp is expired!"⟩
       else Reply.nexted ⟨400, "Otp is invalid!"⟩) :=
  claim_tamper_amended (tokenSvcAt 1) emptyWorld "Ann" "a@b" "b@c" "p1"
    "111111" "222222" "deadbeef" 0 1 0 rfl rfl (by omega) (by decide)
    (by decide) (by decide) (by decide) (by decide)

end Auth
